import Mathlib

/-!
Verification of the camera-grid capture core (`src/main.py`).

The definitions below are a shallow embedding of the Python source:
Python floats are modelled as rationals (every value arising in the
verified code paths is a finite dyadic/decimal number, so `ℚ` is exact),
`None` as `Option.none`, and Python truthiness of a float (`if x:`) as
`x ≠ 0` on the embedded rational.  Stateful methods become functions from
a state record to a new state record.
-/

namespace CameraGrid

/-! ## Module-level tuning constants (`src/main.py`, lines 63-79) -/

/-- `MIN_DYNAMIC_FPS = 5` -/
def MIN_DYNAMIC_FPS : ℚ := 5

/-- `STRESS_HOLD_COUNT = 2` -/
def STRESS_HOLD_COUNT : ℕ := 2

/-- `RECOVER_HOLD_COUNT = 3` -/
def RECOVER_HOLD_COUNT : ℕ := 3

/-- `MAX_RECONNECT_BACKOFF_SEC = 10.0` -/
def MAX_RECONNECT_BACKOFF_SEC : ℚ := 10

/-- `RECONNECT_BACKOFF_MULTIPLIER = 1.5` -/
def RECONNECT_BACKOFF_MULTIPLIER : ℚ := 3 / 2

/-- `FAILED_CAMERA_COOLDOWN_SEC = 30.0` -/
def FAILED_CAMERA_COOLDOWN_SEC : ℚ := 30

/-! ## FramePool (`src/main.py`, lines 131-158)

A numpy array is modelled as a `Buffer`: an allocation identity `id`
(object identity for the `is`-comparison of the spec), a `shape`, and a
`dtype` code.  The `deque` backing `FramePool._pool` is a `List Buffer`
whose *last* element is the right end of the deque: `deque.pop()` removes
the last element and `deque.append` adds at the end, evicting from the
front when the deque is at `maxlen`. -/

/-- A numpy frame buffer: allocation identity, shape, dtype code. -/
structure Buffer where
  id : ℕ
  shape : List ℕ
  dtype : ℕ
deriving DecidableEq, Repr

/-- State of `FramePool`: the deque contents and its `maxlen`. -/
structure FramePool where
  pool : List Buffer
  maxSize : ℕ
deriving DecidableEq, Repr

/-- Result of `FramePool.get`: either a buffer taken from the pool
(the very object that was pooled) or a freshly allocated one. -/
inductive GetResult where
  | pooled (b : Buffer)
  | fresh (b : Buffer)
deriving DecidableEq, Repr

/-- `FramePool.get(shape, dtype)`: pop the most recently released buffer
(right end of the deque); if it matches the requested shape and dtype it
is returned, otherwise it is discarded and a fresh buffer (`np.empty`)
with a new allocation identity `freshId` is returned.  An empty pool
(`IndexError`) also allocates fresh. -/
def FramePool.get (p : FramePool) (shape : List ℕ) (dtype : ℕ) (freshId : ℕ) :
    GetResult × FramePool :=
  match p.pool.getLast? with
  | some frame =>
      let rest : List Buffer := p.pool.dropLast
      if frame.shape = shape ∧ frame.dtype = dtype then
        (GetResult.pooled frame, { p with pool := rest })
      else
        (GetResult.fresh { id := freshId, shape := shape, dtype := dtype },
         { p with pool := rest })
  | none =>
      (GetResult.fresh { id := freshId, shape := shape, dtype := dtype }, p)

/-- `FramePool.release(frame)`: a `None` frame is ignored; otherwise the
buffer is appended at the right end of the deque, evicting the oldest
entry when the deque holds `maxlen` elements already. -/
def FramePool.release (p : FramePool) (frame : Option Buffer) : FramePool :=
  match frame with
  | none => p
  | some b =>
      if p.maxSize = 0 then p
      else { p with pool := (p.pool ++ [b]).drop ((p.pool.length + 1) - p.maxSize) }

/-- `FramePool.clear()` empties the deque. -/
def FramePool.clear (p : FramePool) : FramePool :=
  { p with pool := [] }

/-! ### C1: pool acquire/release behaviour -/

/-- A pool holding two idle buffers: `c1BufDeep` (shape 480x640x3) was
released first, `c1BufTop` (shape 240x320x3) most recently. -/
def c1BufDeep : Buffer := { id := 0, shape := [480, 640, 3], dtype := 0 }

/-- Most recently released buffer of the C1 counterexample pool. -/
def c1BufTop : Buffer := { id := 1, shape := [240, 320, 3], dtype := 0 }

/-- The C1 counterexample pool state. -/
def c1Pool : FramePool := { pool := [c1BufDeep, c1BufTop], maxSize := 16 }

/-- C1 counterexample: the pool contains an idle buffer of exactly the
requested shape and dtype (`c1BufDeep`), yet `get` allocates a fresh
buffer, because only the most recently released buffer (`c1BufTop`,
which does not match) is examined and then discarded.  This refutes
"if the pool currently contains at least one idle buffer of exactly
that shape and dtype, then acquire returns one of those pooled
buffers". -/
theorem c1_pool_counterexample :
    (∃ b ∈ c1Pool.pool, b.shape = [480, 640, 3] ∧ b.dtype = 0) ∧
    (c1Pool.get [480, 640, 3] 0 99).1 =
      GetResult.fresh { id := 99, shape := [480, 640, 3], dtype := 0 } := by
  decide

/-- C1 amended: `get` returns a pooled buffer exactly when the most
recently released buffer in the pool matches the requested shape and
dtype, in which case it returns that very buffer (object identity); in
every other case — mismatching top buffer (even with a matching buffer
deeper in the pool) or empty pool — a fresh buffer is allocated.  In
particular `acquire(S)` immediately after `release` of a same-shape
buffer is a pool hit returning the identical object, for any pool whose
capacity is positive. -/
theorem c1_pool_acquire_amended (p : FramePool) (shape : List ℕ) (dtype freshId : ℕ) :
    (∀ b, p.pool.getLast? = some b → b.shape = shape → b.dtype = dtype →
        (p.get shape dtype freshId).1 = GetResult.pooled b) ∧
    (∀ b, p.pool.getLast? = some b → ¬(b.shape = shape ∧ b.dtype = dtype) →
        (p.get shape dtype freshId).1 =
          GetResult.fresh { id := freshId, shape := shape, dtype := dtype }) ∧
    (p.pool = [] →
        (p.get shape dtype freshId).1 =
          GetResult.fresh { id := freshId, shape := shape, dtype := dtype }) ∧
    (∀ b : Buffer, 0 < p.maxSize → b.shape = shape → b.dtype = dtype →
        ((p.release (some b)).get shape dtype freshId).1 = GetResult.pooled b) := by
  refine ⟨?_, ?_, ?_, ?_⟩
  · intro b hlast hsh hdt
    simp only [FramePool.get, hlast]
    simp [hsh, hdt]
  · intro b hlast hne
    simp only [FramePool.get, hlast]
    simp [hne]
  · intro hnil
    simp [FramePool.get, hnil]
  · intro b hpos hsh hdt
    have hms : p.maxSize ≠ 0 := Nat.pos_iff_ne_zero.mp hpos
    have hdroplen : (p.pool.length + 1) - p.maxSize ≤ p.pool.length := by
      omega
    have hdrop : ((p.pool ++ [b]).drop ((p.pool.length + 1) - p.maxSize)) =
        p.pool.drop ((p.pool.length + 1) - p.maxSize) ++ [b] :=
      List.drop_append_of_le_length hdroplen
    have hlast2 : ((p.release (some b)).pool).getLast? = some b := by
      simp only [FramePool.release, hms, if_false]
      rw [hdrop]
      exact List.getLast?_concat _
    simp only [FramePool.get, hlast2]
    simp [hsh, hdt]

/-- C1 amended, witnessed on a concrete pool: releasing a 480x640x3
buffer into the counterexample pool and acquiring that shape returns the
very same buffer. -/
theorem c1_pool_acquire_witness :
    0 < c1Pool.maxSize ∧
    ((c1Pool.release (some c1BufDeep)).get [480, 640, 3] 0 99).1 =
      GetResult.pooled c1BufDeep :=
  ⟨by decide,
   (c1_pool_acquire_amended c1Pool [480, 640, 3] 0 99).2.2.2 c1BufDeep
     (by decide) rfl rfl⟩

/-! ## CaptureWorker reconnect backoff (`src/main.py`, lines 186, 247-263)

`_ensure_capture_open` either finds the capture open (backoff untouched),
or attempts an open: on success `_reconnect_backoff` is reset to `1.0`;
on failure the worker sleeps `_reconnect_backoff` seconds and then sets
`_reconnect_backoff = min(_reconnect_backoff * 1.5, 10.0)`. -/

/-- `self._reconnect_backoff = 1.0` in `CaptureWorker.__init__`. -/
def initialReconnectBackoff : ℚ := 1

/-- Effect of one `_ensure_capture_open` open attempt on
`_reconnect_backoff`: reset to `1.0` on success, otherwise multiply by
`RECONNECT_BACKOFF_MULTIPLIER` capped at `MAX_RECONNECT_BACKOFF_SEC`. -/
def ensureOpenBackoff (backoff : ℚ) (openSucceeded : Bool) : ℚ :=
  if openSucceeded then initialReconnectBackoff
  else min (backoff * RECONNECT_BACKOFF_MULTIPLIER) MAX_RECONNECT_BACKOFF_SEC

/-- Backoff after `n` consecutive failed open attempts starting from
backoff value `backoff`. -/
def backoffAfterFailures (backoff : ℚ) : ℕ → ℚ
  | 0 => backoff
  | n + 1 => ensureOpenBackoff (backoffAfterFailures backoff n) false

/-- Backoff range invariant: every reachable backoff value lies in
`[1, 10]` (it starts at 1, failure steps stay within, success resets). -/
def BackoffInv (b : ℚ) : Prop :=
  1 ≤ b ∧ b ≤ MAX_RECONNECT_BACKOFF_SEC

theorem backoffInv_initial : BackoffInv initialReconnectBackoff := by
  constructor <;> norm_num [initialReconnectBackoff, MAX_RECONNECT_BACKOFF_SEC]

theorem backoffInv_step (b : ℚ) (hb : BackoffInv b) (s : Bool) :
    BackoffInv (ensureOpenBackoff b s) := by
  obtain ⟨h1, h2⟩ := hb
  cases s with
  | true => exact backoffInv_initial
  | false =>
      constructor
      · apply le_min
        · calc (1 : ℚ) = 1 * 1 := by norm_num
            _ ≤ b * RECONNECT_BACKOFF_MULTIPLIER := by
                apply mul_le_mul h1 (by norm_num [RECONNECT_BACKOFF_MULTIPLIER])
                  (by norm_num) (by linarith)
        · norm_num [MAX_RECONNECT_BACKOFF_SEC]
      · exact min_le_right _ _

theorem backoff_fail_le (b : ℚ) (hb : BackoffInv b) :
    b ≤ ensureOpenBackoff b false := by
  obtain ⟨h1, h2⟩ := hb
  apply le_min
  · rw [RECONNECT_BACKOFF_MULTIPLIER]
    nlinarith [h1]
  · exact h2

theorem backoffInv_afterFailures (b : ℚ) (hb : BackoffInv b) (n : ℕ) :
    BackoffInv (backoffAfterFailures b n) := by
  induction n with
  | zero => exact hb
  | succ n ih => exact backoffInv_step _ ih false

/-! ### C3: backoff discipline -/

/-- C3: starting from any reachable backoff value (the invariant range
`[1, 10]`, which contains the initial value 1), each failed open attempt
multiplies the backoff by 1.5 capped at the 10-second maximum; across
any sequence of consecutive failures the backoff is monotonically
non-decreasing, stays within `[1, 10]` and in particular never exceeds
the cap; and a single successful open resets it to the 1-second base
regardless of its current value. -/
theorem c3_backoff_discipline (b : ℚ) (hb1 : 1 ≤ b)
    (hb2 : b ≤ MAX_RECONNECT_BACKOFF_SEC) :
    (ensureOpenBackoff b false =
        min (b * RECONNECT_BACKOFF_MULTIPLIER) MAX_RECONNECT_BACKOFF_SEC) ∧
    (∀ m n : ℕ, m ≤ n →
        backoffAfterFailures b m ≤ backoffAfterFailures b n) ∧
    (∀ n : ℕ, 1 ≤ backoffAfterFailures b n ∧
        backoffAfterFailures b n ≤ MAX_RECONNECT_BACKOFF_SEC) ∧
    (∀ b' : ℚ, ensureOpenBackoff b' true = initialReconnectBackoff) := by
  have hb : BackoffInv b := ⟨hb1, hb2⟩
  refine ⟨rfl, ?_, ?_, fun b' => rfl⟩
  · intro m n hmn
    induction n with
    | zero =>
        have : m = 0 := Nat.le_zero.mp hmn
        simp [this]
    | succ n ih =>
        rcases Nat.lt_or_ge m (n + 1) with h | h
        · have hm : m ≤ n := Nat.lt_succ_iff.mp h
          calc backoffAfterFailures b m ≤ backoffAfterFailures b n := ih hm
            _ ≤ backoffAfterFailures b (n + 1) :=
                backoff_fail_le _ (backoffInv_afterFailures b hb n)
        · have : m = n + 1 := le_antisymm hmn h
          simp [this]
  · intro n
    exact backoffInv_afterFailures b hb n

/-- C3 witnessed at the initial backoff value 1: the hypotheses hold and
two consecutive failures produce the non-decreasing capped sequence. -/
theorem c3_backoff_witness :
    (1 : ℚ) ≤ 1 ∧ (1 : ℚ) ≤ MAX_RECONNECT_BACKOFF_SEC ∧
    (∀ n : ℕ, 1 ≤ backoffAfterFailures 1 n ∧
        backoffAfterFailures 1 n ≤ MAX_RECONNECT_BACKOFF_SEC) :=
  ⟨le_refl 1, by norm_num [MAX_RECONNECT_BACKOFF_SEC],
   (c3_backoff_discipline 1 (le_refl 1)
      (by norm_num [MAX_RECONNECT_BACKOFF_SEC])).2.2.1⟩

/-! ## CaptureWorker fps / emit interval (`src/main.py`, lines 189-198,
209-224, 335-367)

The fps-relevant worker state: `_target_fps` (possibly `None`),
`_emit_interval` and `_cached_emit_interval` (the copy the capture loop
reads at every iteration). -/

/-- Fps-relevant fields of a `CaptureWorker`. -/
structure WorkerFps where
  targetFps : Option ℚ
  emitInterval : ℚ
  cachedEmitInterval : ℚ
deriving DecidableEq, Repr

/-- `CaptureWorker.__init__`: `_target_fps = target_fps`,
`_emit_interval = 1.0 / 30.0`, `_cached_emit_interval = _emit_interval`. -/
def mkCaptureWorker (targetFps : Option ℚ) : WorkerFps :=
  { targetFps := targetFps, emitInterval := 1 / 30, cachedEmitInterval := 1 / 30 }

/-- `CaptureWorker._configure_fps_from_camera`.  `capFps` is the value
`self._cap.get(cv2.CAP_PROP_FPS)` would report, `none` standing for the
absent-capture branch which yields `0.0`.  The Python guard
`if self._target_fps and self._target_fps > 0` (truthiness plus
comparison) holds exactly when `targetFps` carries a positive value.
A resulting fps outside `(1, 240]` is replaced by the default 30, and
`_emit_interval = _cached_emit_interval = 1.0 / max(1.0, fps)`. -/
def configureFpsFromCamera (st : WorkerFps) (capFps : Option ℚ) : WorkerFps :=
  let fps : ℚ :=
    match st.targetFps with
    | some t => if 0 < t then t else capFps.getD 0
    | none => capFps.getD 0
  let fps : ℚ := if fps ≤ 1 ∨ 240 < fps then 30 else fps
  { st with emitInterval := 1 / max 1 fps, cachedEmitInterval := 1 / max 1 fps }

/-- `CaptureWorker.set_target_fps(fps)`: `None` returns immediately,
`fps <= 0` returns immediately, otherwise `_target_fps = fps` and
`_emit_interval = _cached_emit_interval = 1.0 / max(1.0, fps)` (the
subsequent push of the rate to the open handle does not touch these
fields). -/
def setTargetFps (st : WorkerFps) (fps : Option ℚ) : WorkerFps :=
  match fps with
  | none => st
  | some f =>
      if f ≤ 0 then st
      else
        { targetFps := some f,
          emitInterval := 1 / max 1 f,
          cachedEmitInterval := 1 / max 1 f }

/-- The rate gate of `CaptureWorker.run` (lines 216-224): at each loop
iteration the worker reads `_cached_emit_interval` afresh and sleeps
(deferring the decode) exactly when `now - _last_emit` is still smaller
than that interval. -/
def rateGateSleeps (st : WorkerFps) (now lastEmit : ℚ) : Bool :=
  decide (now - lastEmit < st.cachedEmitInterval)

/-! ### C4: the (1, 240] fps validation -/

/-- C4 counterexample: `set_target_fps(300)` recomputes `emitInterval`
from an fps outside `(1, 240]`, yet the default 30 is *not* substituted:
the resulting interval is `1/300`, not `1/30`.  The validation exists
only in `_configure_fps_from_camera`. -/
theorem c4_fps_validation_counterexample :
    (setTargetFps (mkCaptureWorker (some 20)) (some 300)).emitInterval = 1 / 300 ∧
    (setTargetFps (mkCaptureWorker (some 20)) (some 300)).emitInterval ≠ 1 / 30 := by
  constructor
  · norm_num [setTargetFps, mkCaptureWorker]
  · norm_num [setTargetFps, mkCaptureWorker]

/-- C4 amended: the substitution of the default 30 for an fps outside
`(1, 240]` happens exactly on the `_configure_fps_from_camera` path
(run at every capture open), for both a caller-configured positive
target fps and a backend-reported fps; an in-range fps is used as is.
`set_target_fps` performs no such validation: it only rejects
`fps ≤ 0`, and any accepted fps yields `emitInterval = 1 / max 1 fps`. -/
theorem c4_fps_validation_amended (st : WorkerFps) (capFps : Option ℚ) (f : ℚ) :
    (∀ t, st.targetFps = some t → 0 < t → (t ≤ 1 ∨ 240 < t) →
        (configureFpsFromCamera st capFps).emitInterval = 1 / 30) ∧
    (st.targetFps = none → (capFps.getD 0 ≤ 1 ∨ 240 < capFps.getD 0) →
        (configureFpsFromCamera st capFps).emitInterval = 1 / 30) ∧
    (∀ t, st.targetFps = some t → 1 < t → t ≤ 240 →
        (configureFpsFromCamera st capFps).emitInterval = 1 / t) ∧
    (0 < f → (setTargetFps st (some f)).emitInterval = 1 / max 1 f) := by
  refine ⟨?_, ?_, ?_, ?_⟩
  · intro t ht htpos hout
    simp only [configureFpsFromCamera, ht, if_pos htpos, if_pos hout]
    norm_num
  · intro ht hout
    simp only [configureFpsFromCamera, ht, if_pos hout]
    norm_num
  · intro t ht h1 h240
    have hpos : 0 < t := by linarith
    have hnot : ¬(t ≤ 1 ∨ 240 < t) := by
      push_neg
      exact ⟨h1, h240⟩
    simp only [configureFpsFromCamera, ht, if_pos hpos, if_neg hnot]
    have hmax : max 1 t = t := max_eq_right (le_of_lt h1)
    rw [hmax]
  · intro hf
    have : ¬(f ≤ 0) := not_le.mpr hf
    simp [setTargetFps, this]

/-- C4 amended, witnessed: a worker whose configured target fps is 300
(outside `(1, 240]`) gets `emitInterval = 1/30` from
`_configure_fps_from_camera`, while `set_target_fps(300)` on the same
worker yields `1/300`. -/
theorem c4_fps_validation_witness :
    (configureFpsFromCamera (mkCaptureWorker (some 300)) (some 30)).emitInterval
      = 1 / 30 ∧
    (setTargetFps (mkCaptureWorker (some 300)) (some 300)).emitInterval
      = 1 / max 1 300 :=
  ⟨(c4_fps_validation_amended (mkCaptureWorker (some 300)) (some 30) 300).1
      300 rfl (by norm_num) (by norm_num),
   (c4_fps_validation_amended (mkCaptureWorker (some 300)) (some 300) 300).2.2.2
      (by norm_num)⟩

/-! ### C5: runtime fps update semantics -/

/-- C5 counterexample: `set_target_fps(1/2)` is a positive fps, but the
resulting `emitInterval` is `1 / max(1, 1/2) = 1`, not `1/(1/2) = 2`.
This refutes "for every fps > 0 it updates emitInterval to exactly
1/fps". -/
theorem c5_set_fps_counterexample :
    (setTargetFps (mkCaptureWorker (some 30)) (some (1 / 2))).emitInterval = 1 ∧
    (setTargetFps (mkCaptureWorker (some 30)) (some (1 / 2))).emitInterval
      ≠ 1 / ((1 : ℚ) / 2) := by
  constructor
  · norm_num [setTargetFps, mkCaptureWorker]
  · norm_num [setTargetFps, mkCaptureWorker]

/-- C5 amended: `set_target_fps` leaves the worker state unchanged for
`None` or non-positive fps; for positive fps it sets the target fps to
the given value and `emitInterval = cachedEmitInterval = 1 / max 1 fps`
(which equals `1/fps` exactly when `fps ≥ 1`); the interval read by the
rate gate at the next loop iteration is the updated one.  Scenario: a
worker at target fps 30 (gate interval 1/30 ≈ 33ms) switched by
`set_target_fps(15)` has gate interval 1/15 ≈ 66ms: an elapsed time of
1/30 since the last emit, which previously passed the gate, now sleeps,
and 1/15 passes. -/
theorem c5_set_fps_amended (st : WorkerFps) (f now lastEmit : ℚ) :
    (setTargetFps st none = st) ∧
    (f ≤ 0 → setTargetFps st (some f) = st) ∧
    (0 < f → (setTargetFps st (some f)).targetFps = some f ∧
        (setTargetFps st (some f)).emitInterval = 1 / max 1 f ∧
        (setTargetFps st (some f)).cachedEmitInterval = 1 / max 1 f) ∧
    (1 ≤ f → (setTargetFps st (some f)).emitInterval = 1 / f) ∧
    (0 < f → rateGateSleeps (setTargetFps st (some f)) now lastEmit =
        decide (now - lastEmit < 1 / max 1 f)) ∧
    ((setTargetFps (mkCaptureWorker (some 30)) (some 15)).cachedEmitInterval
        = 1 / 15 ∧
      rateGateSleeps (setTargetFps (mkCaptureWorker (some 30)) (some 15))
        (1 / 30) 0 = true ∧
      rateGateSleeps (setTargetFps (mkCaptureWorker (some 30)) (some 15))
        (1 / 15) 0 = false) := by
  refine ⟨rfl, ?_, ?_, ?_, ?_, ?_, ?_, ?_⟩
  · intro hf
    simp [setTargetFps, hf]
  · intro hf
    have : ¬(f ≤ 0) := not_le.mpr hf
    simp [setTargetFps, this]
  · intro hf
    have h0 : ¬(f ≤ 0) := by linarith
    have hmax : max 1 f = f := max_eq_right hf
    simp [setTargetFps, h0, hmax]
  · intro hf
    have : ¬(f ≤ 0) := not_le.mpr hf
    simp [rateGateSleeps, setTargetFps, this]
  · norm_num [setTargetFps, mkCaptureWorker]
  · norm_num [rateGateSleeps, setTargetFps, mkCaptureWorker]
  · norm_num [rateGateSleeps, setTargetFps, mkCaptureWorker]

/-- C5 amended, witnessed at fps 15 on a 30-fps worker: the positive-fps
update applies and the gate uses the new 1/15 interval. -/
theorem c5_set_fps_witness :
    ((setTargetFps (mkCaptureWorker (some 30)) (some 15)).targetFps = some 15 ∧
      (setTargetFps (mkCaptureWorker (some 30)) (some 15)).emitInterval
        = 1 / max 1 15 ∧
      (setTargetFps (mkCaptureWorker (some 30)) (some 15)).cachedEmitInterval
        = 1 / max 1 15) ∧
    (setTargetFps (mkCaptureWorker (some 30)) (some 15)).emitInterval = 1 / 15 :=
  ⟨(c5_set_fps_amended (mkCaptureWorker (some 30)) 15 0 0).2.2.1 (by norm_num),
   (c5_set_fps_amended (mkCaptureWorker (some 30)) 15 0 0).2.2.2.1 (by norm_num)⟩

/-! ## CameraWidget state and the dynamic rate controller
(`src/main.py`, lines 507-547, 578-607, 918-930, 1319-1359)

The widget fields the rate controller and the hot-plug attachment
touch: the capture-enabled flag, base and current dynamic target fps,
the UI render timer rate, the attached camera identity, the optional
capture worker and the latest-frame slot. -/

/-- Rate-controller- and attachment-relevant fields of `CameraWidget`. -/
structure CameraWidgetState where
  captureEnabled : Bool
  cameraStreamLink : Option ℕ
  baseTargetFps : Option ℚ
  currentTargetFps : Option ℚ
  uiRenderFps : ℕ
  worker : Option WorkerFps
  latestFrame : Option ℕ
deriving DecidableEq, Repr

/-- `CameraWidget.set_dynamic_fps(fps)`: returns immediately when `fps`
is `None` or capture is disabled; otherwise clamps the value to at least
`MIN_DYNAMIC_FPS`, stores it as `current_target_fps` and pushes it to the
worker (if any) via `set_target_fps`. -/
def CameraWidgetState.setDynamicFps (w : CameraWidgetState) (fps : Option ℚ) :
    CameraWidgetState :=
  match fps with
  | none => w
  | some f =>
      if w.captureEnabled = false then w
      else
        let f := if f < MIN_DYNAMIC_FPS then MIN_DYNAMIC_FPS else f
        { w with
          currentTargetFps := some f,
          worker := w.worker.map (fun ws => setTargetFps ws (some f)) }

/-- Python `x or d` on an optional float: `None` and `0.0` are falsy. -/
def pyOr (o : Option ℚ) (d : ℚ) : ℚ :=
  match o with
  | some x => if x = 0 then d else x
  | none => d

/-- The stress branch of `adjust_fps` applied to one widget:
`base = w.base_target_fps or 30`, `cur = w.current_target_fps or base`,
`new_fps = max(MIN_DYNAMIC_FPS, cur - 2)`, applied only when it is an
actual decrease. -/
def stressLowerWidget (w : CameraWidgetState) : CameraWidgetState :=
  let base := pyOr w.baseTargetFps 30
  let cur := pyOr w.currentTargetFps base
  let newFps := max MIN_DYNAMIC_FPS (cur - 2)
  if newFps < cur then w.setDynamicFps (some newFps) else w

/-- The recover branch of `adjust_fps` applied to one widget:
`new_fps = min(base, cur + 2)`, applied only when it is an actual
increase. -/
def recoverRaiseWidget (w : CameraWidgetState) : CameraWidgetState :=
  let base := pyOr w.baseTargetFps 30
  let cur := pyOr w.currentTargetFps base
  let newFps := min base (cur + 2)
  if cur < newFps then w.setDynamicFps (some newFps) else w

/-- The rate controller's state: the `stress_counter` dict plus the
widgets it adjusts. -/
structure RateControllerState where
  stress : ℕ
  recover : ℕ
  widgets : List CameraWidgetState
deriving DecidableEq, Repr

/-- One `adjust_fps` timer tick given the sampled stress verdict:
update the streak counters (each direction resets the other), then act
— and reset the qualifying counter — when a streak reaches its hold
count. -/
def adjustFps (st : RateControllerState) (stressed : Bool) : RateControllerState :=
  let st1 : RateControllerState :=
    if stressed then { st with stress := st.stress + 1, recover := 0 }
    else { st with recover := st.recover + 1, stress := 0 }
  let st2 : RateControllerState :=
    if STRESS_HOLD_COUNT ≤ st1.stress then
      { st1 with widgets := st1.widgets.map stressLowerWidget, stress := 0 }
    else st1
  if RECOVER_HOLD_COUNT ≤ st2.recover then
    { st2 with widgets := st2.widgets.map recoverRaiseWidget, recover := 0 }
  else st2

/-- Closed form of a stressed tick: the recover streak is reset; the
widgets are lowered (and the stress streak reset) exactly when the
incremented stress streak reaches the hold count. -/
theorem adjustFps_true_eq (st : RateControllerState) :
    adjustFps st true =
      if STRESS_HOLD_COUNT ≤ st.stress + 1 then
        { stress := 0, recover := 0, widgets := st.widgets.map stressLowerWidget }
      else
        { stress := st.stress + 1, recover := 0, widgets := st.widgets } := by
  have hrec : ¬(RECOVER_HOLD_COUNT ≤ 0) := by norm_num [RECOVER_HOLD_COUNT]
  by_cases h : STRESS_HOLD_COUNT ≤ st.stress + 1
  · simp [adjustFps, h, hrec]
  · simp [adjustFps, h, hrec]

/-- Closed form of a non-stressed tick: the stress streak is reset; the
widgets are raised (and the recover streak reset) exactly when the
incremented recover streak reaches the hold count. -/
theorem adjustFps_false_eq (st : RateControllerState) :
    adjustFps st false =
      if RECOVER_HOLD_COUNT ≤ st.recover + 1 then
        { stress := 0, recover := 0, widgets := st.widgets.map recoverRaiseWidget }
      else
        { stress := 0, recover := st.recover + 1, widgets := st.widgets } := by
  have hstr : ¬(STRESS_HOLD_COUNT ≤ 0) := by norm_num [STRESS_HOLD_COUNT]
  by_cases h : RECOVER_HOLD_COUNT ≤ st.recover + 1
  · simp [adjustFps, h, hstr]
  · simp [adjustFps, h, hstr]

/-! ### C6: hysteresis discipline of the rate controller -/

/-- C6: the rate controller's tick (i) resets the opposite streak on
every tick, (ii) modifies the widgets only on a tick where the streak
just reached its hold count (`STRESS_HOLD_COUNT` consecutive stressed
ticks, resp. `RECOVER_HOLD_COUNT` consecutive non-stressed ticks),
(iii) resets the qualifying streak to 0 after acting, and (iv) an
isolated stressed tick (stress streak previously 0) followed by a
non-stressed tick leaves every widget unchanged. -/
theorem c6_hysteresis_discipline (st : RateControllerState) (stressed : Bool) :
    ((adjustFps st stressed).widgets ≠ st.widgets →
        (stressed = true ∧ STRESS_HOLD_COUNT ≤ st.stress + 1) ∨
        (stressed = false ∧ RECOVER_HOLD_COUNT ≤ st.recover + 1)) ∧
    (stressed = true → (adjustFps st stressed).recover = 0) ∧
    (stressed = false → (adjustFps st stressed).stress = 0) ∧
    (stressed = true → STRESS_HOLD_COUNT ≤ st.stress + 1 →
        (adjustFps st stressed).stress = 0) ∧
    (stressed = false → RECOVER_HOLD_COUNT ≤ st.recover + 1 →
        (adjustFps st stressed).recover = 0) ∧
    (st.stress = 0 →
        (adjustFps st true).widgets = st.widgets ∧
        (adjustFps (adjustFps st true) false).widgets = st.widgets) := by
  refine ⟨?_, ?_, ?_, ?_, ?_, ?_⟩
  · intro hne
    cases stressed with
    | true =>
        left
        refine ⟨rfl, ?_⟩
        by_contra h
        rw [adjustFps_true_eq, if_neg h] at hne
        exact hne rfl
    | false =>
        right
        refine ⟨rfl, ?_⟩
        by_contra h
        rw [adjustFps_false_eq, if_neg h] at hne
        exact hne rfl
  · intro h
    subst h
    rw [adjustFps_true_eq]
    split <;> rfl
  · intro h
    subst h
    rw [adjustFps_false_eq]
    split <;> rfl
  · intro h hhold
    subst h
    rw [adjustFps_true_eq, if_pos hhold]
  · intro h hhold
    subst h
    rw [adjustFps_false_eq, if_pos hhold]
  · intro h0
    have hsh : ¬(STRESS_HOLD_COUNT ≤ st.stress + 1) := by
      rw [h0]
      norm_num [STRESS_HOLD_COUNT]
    have hfirst : adjustFps st true =
        { stress := st.stress + 1, recover := 0, widgets := st.widgets } := by
      rw [adjustFps_true_eq, if_neg hsh]
    refine ⟨by rw [hfirst], ?_⟩
    rw [hfirst, adjustFps_false_eq]
    rw [if_neg (by norm_num [RECOVER_HOLD_COUNT])]

/-- C6 witnessed on a concrete controller state (one 20-fps widget,
both streaks 0): a stressed tick then a non-stressed tick leave the
widget untouched, and the counter resets hold. -/
theorem c6_hysteresis_witness :
    ((adjustFps { stress := 0, recover := 0, widgets :=
        [{ captureEnabled := true, cameraStreamLink := some 0,
           baseTargetFps := some 20, currentTargetFps := some 20,
           uiRenderFps := 25, worker := some (mkCaptureWorker (some 20)),
           latestFrame := none }] } true).widgets =
      [{ captureEnabled := true, cameraStreamLink := some 0,
         baseTargetFps := some 20, currentTargetFps := some 20,
         uiRenderFps := 25, worker := some (mkCaptureWorker (some 20)),
         latestFrame := none }]) ∧
    ((adjustFps (adjustFps { stress := 0, recover := 0, widgets :=
        [{ captureEnabled := true, cameraStreamLink := some 0,
           baseTargetFps := some 20, currentTargetFps := some 20,
           uiRenderFps := 25, worker := some (mkCaptureWorker (some 20)),
           latestFrame := none }] } true) false).widgets =
      [{ captureEnabled := true, cameraStreamLink := some 0,
         baseTargetFps := some 20, currentTargetFps := some 20,
         uiRenderFps := 25, worker := some (mkCaptureWorker (some 20)),
         latestFrame := none }]) :=
  (c6_hysteresis_discipline { stress := 0, recover := 0, widgets :=
      [{ captureEnabled := true, cameraStreamLink := some 0,
         baseTargetFps := some 20, currentTargetFps := some 20,
         uiRenderFps := 25, worker := some (mkCaptureWorker (some 20)),
         latestFrame := none }] } true).2.2.2.2.2 rfl

/-! ### C7: dynamic fps bounds -/

/-- Invariant of an active widget under the rate controller: capture is
enabled and both fps fields carry values with
`MIN_DYNAMIC_FPS ≤ current ≤ base`. -/
def widgetFpsInv (w : CameraWidgetState) : Prop :=
  w.captureEnabled = true ∧
  ∃ c b : ℚ, w.currentTargetFps = some c ∧ w.baseTargetFps = some b ∧
    MIN_DYNAMIC_FPS ≤ c ∧ c ≤ b

theorem stressLowerWidget_ui (w : CameraWidgetState) :
    (stressLowerWidget w).uiRenderFps = w.uiRenderFps := by
  simp only [stressLowerWidget, CameraWidgetState.setDynamicFps]
  split
  · split
    · rfl
    · rfl
  · rfl

theorem stressLowerWidget_base (w : CameraWidgetState) :
    (stressLowerWidget w).baseTargetFps = w.baseTargetFps := by
  simp only [stressLowerWidget, CameraWidgetState.setDynamicFps]
  split
  · split
    · rfl
    · rfl
  · rfl

theorem recoverRaiseWidget_ui (w : CameraWidgetState) :
    (recoverRaiseWidget w).uiRenderFps = w.uiRenderFps := by
  simp only [recoverRaiseWidget, CameraWidgetState.setDynamicFps]
  split
  · split
    · rfl
    · rfl
  · rfl

theorem recoverRaiseWidget_base (w : CameraWidgetState) :
    (recoverRaiseWidget w).baseTargetFps = w.baseTargetFps := by
  simp only [recoverRaiseWidget, CameraWidgetState.setDynamicFps]
  split
  · split
    · rfl
    · rfl
  · rfl

/-- Closed form of `set_dynamic_fps` on an enabled widget for a value
already at or above the floor: store the value and push it to the
worker. -/
theorem setDynamicFps_enabled (w : CameraWidgetState) (f : ℚ)
    (hen : w.captureEnabled = true) (hge : MIN_DYNAMIC_FPS ≤ f) :
    w.setDynamicFps (some f) =
      { w with currentTargetFps := some f,
               worker := w.worker.map (fun ws => setTargetFps ws (some f)) } := by
  have h1 : ¬(w.captureEnabled = false) := by
    rw [hen]
    simp
  have h2 : ¬(f < MIN_DYNAMIC_FPS) := not_lt.mpr hge
  simp only [CameraWidgetState.setDynamicFps, if_neg h1, if_neg h2]

/-- The stress branch on an invariant-satisfying widget: the invariant
is preserved and the current fps becomes exactly
`max MIN_DYNAMIC_FPS (cur - 2)`. -/
theorem stressLowerWidget_spec (w : CameraWidgetState) (hw : widgetFpsInv w) :
    widgetFpsInv (stressLowerWidget w) ∧
    (stressLowerWidget w).currentTargetFps =
      some (max MIN_DYNAMIC_FPS
        (pyOr w.currentTargetFps (pyOr w.baseTargetFps 30) - 2)) := by
  obtain ⟨hen, c, b, hc, hb, hc5, hcb⟩ := hw
  have hminpos : (0 : ℚ) < MIN_DYNAMIC_FPS := by norm_num [MIN_DYNAMIC_FPS]
  have hbne : b ≠ 0 := by
    intro h
    rw [h] at hcb
    linarith
  have hcne : c ≠ 0 := by
    intro h
    rw [h] at hc5
    linarith
  have hbase : pyOr w.baseTargetFps 30 = b := by
    rw [hb]
    simp [pyOr, hbne]
  have hcur : pyOr w.currentTargetFps (pyOr w.baseTargetFps 30) = c := by
    rw [hc, hbase]
    simp [pyOr, hcne]
  rw [stressLowerWidget, hcur]
  by_cases hlt : max MIN_DYNAMIC_FPS (c - 2) < c
  · rw [if_pos hlt,
      setDynamicFps_enabled w _ hen (le_max_left _ _)]
    refine ⟨⟨hen, max MIN_DYNAMIC_FPS (c - 2), b, rfl, hb, le_max_left _ _, ?_⟩, rfl⟩
    apply max_le
    · linarith
    · linarith
  · rw [if_neg hlt]
    have hmax : max MIN_DYNAMIC_FPS (c - 2) = c := by
      apply le_antisymm
      · apply max_le hc5
        linarith
      · exact not_lt.mp hlt
    exact ⟨⟨hen, c, b, hc, hb, hc5, hcb⟩, by rw [hc, hmax]⟩

/-- The recover branch on an invariant-satisfying widget preserves the
invariant (in particular the current fps never exceeds the base). -/
theorem recoverRaiseWidget_spec (w : CameraWidgetState) (hw : widgetFpsInv w) :
    widgetFpsInv (recoverRaiseWidget w) := by
  obtain ⟨hen, c, b, hc, hb, hc5, hcb⟩ := hw
  have hminpos : (0 : ℚ) < MIN_DYNAMIC_FPS := by norm_num [MIN_DYNAMIC_FPS]
  have hbne : b ≠ 0 := by
    intro h
    rw [h] at hcb
    linarith
  have hcne : c ≠ 0 := by
    intro h
    rw [h] at hc5
    linarith
  have hbase : pyOr w.baseTargetFps 30 = b := by
    rw [hb]
    simp [pyOr, hbne]
  have hcur : pyOr w.currentTargetFps (pyOr w.baseTargetFps 30) = c := by
    rw [hc, hbase]
    simp [pyOr, hcne]
  rw [recoverRaiseWidget, hcur, hbase]
  by_cases hlt : c < min b (c + 2)
  · have hge : MIN_DYNAMIC_FPS ≤ min b (c + 2) :=
      le_of_lt (lt_of_le_of_lt hc5 hlt)
    rw [if_pos hlt, setDynamicFps_enabled w _ hen hge]
    exact ⟨hen, min b (c + 2), b, rfl, hb, hge, min_le_left _ _⟩
  · rw [if_neg hlt]
    exact ⟨hen, c, b, hc, hb, hc5, hcb⟩

/-- The C7 counterexample widget: active, base and current fps 20, UI
render rate 25. -/
def c7Widget : CameraWidgetState :=
  { captureEnabled := true, cameraStreamLink := some 0,
    baseTargetFps := some 20, currentTargetFps := some 20,
    uiRenderFps := 25, worker := some (mkCaptureWorker (some 20)),
    latestFrame := none }

/-- The C7 counterexample controller state: stress streak already 1, so
the next stressed tick reaches `STRESS_HOLD_COUNT = 2`. -/
def c7State : RateControllerState :=
  { stress := 1, recover := 0, widgets := [c7Widget] }

/-- C7 counterexample: a stressed tick that qualifies the stress hold
lowers the widget's target fps (20 → 18) but leaves its UI refresh rate
exactly as it was (25): `adjust_fps` contains no UI-refresh-rate
adjustment at all, refuting "its UI refresh rate is likewise decreased
by a fixed step floored at MIN_DYNAMIC_UI_FPS". -/
theorem c7_ui_fps_counterexample :
    STRESS_HOLD_COUNT ≤ c7State.stress + 1 ∧
    (adjustFps c7State true).widgets.map CameraWidgetState.currentTargetFps =
      [some 18] ∧
    (adjustFps c7State true).widgets.map CameraWidgetState.uiRenderFps = [25] ∧
    c7State.widgets.map CameraWidgetState.uiRenderFps = [25] := by
  have hhold : STRESS_HOLD_COUNT ≤ c7State.stress + 1 := by
    norm_num [STRESS_HOLD_COUNT, c7State]
  have hadj : adjustFps c7State true =
      { stress := 0, recover := 0,
        widgets := c7State.widgets.map stressLowerWidget } := by
    rw [adjustFps_true_eq, if_pos hhold]
  have hcur : (stressLowerWidget c7Widget).currentTargetFps = some 18 := by
    norm_num [stressLowerWidget, c7Widget, pyOr, max_def, MIN_DYNAMIC_FPS,
      CameraWidgetState.setDynamicFps]
  have hui : (stressLowerWidget c7Widget).uiRenderFps = 25 := by
    rw [stressLowerWidget_ui]
    rfl
  refine ⟨hhold, ?_, ?_, rfl⟩
  · rw [hadj]
    simp only [c7State, List.map_cons, List.map_nil, hcur]
  · rw [hadj]
    simp only [c7State, List.map_cons, List.map_nil, hui]

/-- C7 amended: under any sequence of ticks the rate controller keeps
every active widget's dynamic target fps within
`[MIN_DYNAMIC_FPS, baseline]` (the invariant is preserved by every
tick); a qualifying stress hold sets each widget's target fps to
exactly `max MIN_DYNAMIC_FPS (cur - 2)` (decrease by the fixed step 2,
floored); and the controller never changes any widget's UI refresh rate
or baseline. -/
theorem c7_fps_bounds_amended (st : RateControllerState) (stressed : Bool)
    (hinv : ∀ w ∈ st.widgets, widgetFpsInv w) :
    (∀ w' ∈ (adjustFps st stressed).widgets, widgetFpsInv w') ∧
    ((adjustFps st stressed).widgets.map CameraWidgetState.uiRenderFps =
        st.widgets.map CameraWidgetState.uiRenderFps) ∧
    ((adjustFps st stressed).widgets.map CameraWidgetState.baseTargetFps =
        st.widgets.map CameraWidgetState.baseTargetFps) ∧
    (stressed = true → STRESS_HOLD_COUNT ≤ st.stress + 1 →
        (adjustFps st stressed).widgets.map CameraWidgetState.currentTargetFps =
          st.widgets.map (fun w =>
            some (max MIN_DYNAMIC_FPS
              (pyOr w.currentTargetFps (pyOr w.baseTargetFps 30) - 2)))) := by
  cases stressed with
  | true =>
      rw [adjustFps_true_eq]
      by_cases hhold : STRESS_HOLD_COUNT ≤ st.stress + 1
      · rw [if_pos hhold]
        refine ⟨?_, ?_, ?_, ?_⟩
        · intro w' hw'
          simp only [List.mem_map] at hw'
          obtain ⟨w, hw, rfl⟩ := hw'
          exact (stressLowerWidget_spec w (hinv w hw)).1
        · rw [List.map_map]
          exact List.map_congr_left fun w _ => stressLowerWidget_ui w
        · rw [List.map_map]
          exact List.map_congr_left fun w _ => stressLowerWidget_base w
        · intro _ _
          rw [List.map_map]
          exact List.map_congr_left fun w hw =>
            (stressLowerWidget_spec w (hinv w hw)).2
      · rw [if_neg hhold]
        exact ⟨hinv, rfl, rfl, fun _ h => absurd h hhold⟩
  | false =>
      rw [adjustFps_false_eq]
      by_cases hhold : RECOVER_HOLD_COUNT ≤ st.recover + 1
      · rw [if_pos hhold]
        refine ⟨?_, ?_, ?_, ?_⟩
        · intro w' hw'
          simp only [List.mem_map] at hw'
          obtain ⟨w, hw, rfl⟩ := hw'
          exact recoverRaiseWidget_spec w (hinv w hw)
        · rw [List.map_map]
          exact List.map_congr_left fun w _ => recoverRaiseWidget_ui w
        · rw [List.map_map]
          exact List.map_congr_left fun w _ => recoverRaiseWidget_base w
        · intro h
          exact absurd h (by simp)
      · rw [if_neg hhold]
        refine ⟨hinv, rfl, rfl, ?_⟩
        intro h
        exact absurd h (by simp)

/-- C7 amended, witnessed on the concrete `c7State`: the invariant
holds before and after a qualifying stressed tick, and the UI refresh
rates are untouched. -/
theorem c7_fps_bounds_witness :
    (∀ w ∈ c7State.widgets, widgetFpsInv w) ∧
    (∀ w' ∈ (adjustFps c7State true).widgets, widgetFpsInv w') ∧
    ((adjustFps c7State true).widgets.map CameraWidgetState.uiRenderFps =
        c7State.widgets.map CameraWidgetState.uiRenderFps) := by
  have hinv : ∀ w ∈ c7State.widgets, widgetFpsInv w := by
    intro w hw
    simp only [c7State, List.mem_singleton] at hw
    subst hw
    exact ⟨rfl, 20, 20, rfl, rfl, by norm_num [MIN_DYNAMIC_FPS], le_refl _⟩
  exact ⟨hinv, (c7_fps_bounds_amended c7State true hinv).1,
    (c7_fps_bounds_amended c7State true hinv).2.1⟩

/-! ## Camera discovery: `find_working_cameras` (`src/main.py`,
lines 1095-1134)

Each discovery pass submits one `test_single_camera` future per
candidate to a thread pool and collects the successful indices in the
order `as_completed` yields them — the *completion* order, an arbitrary
permutation of the submission order.  A pass is therefore embedded as a
filter over a completion-order list `order`, and the theorems take the
completion orders as parameters constrained to be permutations of the
submitted candidates.  `probe1` is the first-pass verdict of
`test_single_camera(idx)` (3 retries, force-release allowed), `probe2`
the second-pass verdict (2 retries, `allow_kill=False`). -/

/-- One discovery pass: the candidates whose probe succeeded, in
completion order. -/
def findWorkingPass (order : List ℕ) (probe : ℕ → Bool) : List ℕ :=
  order.filter probe

/-- `find_working_cameras`: run the first pass; if it found anything,
run the confirmation pass over exactly the first-pass survivors (with
force-release disabled) and return its result, else return the empty
first-pass result. -/
def findWorkingCameras (order1 : List ℕ) (probe1 : ℕ → Bool)
    (order2 : List ℕ) (probe2 : ℕ → Bool) : List ℕ :=
  let working := findWorkingPass order1 probe1
  if working.isEmpty then working
  else findWorkingPass order2 probe2

/-! ### C2: the two-pass discovery result -/

/-- C2 counterexample: with candidates `[0, 1]` (submitted in ascending
order) and every probe succeeding, the completion order `[1, 0]` is a
legitimate schedule of the concurrent pool (a permutation of the
submissions for both passes), yet the returned list is `[1, 0]`, which
is not ordered by ascending identity.  The code never sorts: the result
order is the `as_completed` completion order. -/
theorem c2_order_counterexample :
    ([1, 0] : List ℕ).Perm [0, 1] ∧
    ([1, 0] : List ℕ).Perm (findWorkingPass [0, 1] (fun _ => true)) ∧
    findWorkingCameras [1, 0] (fun _ => true) [1, 0] (fun _ => true) = [1, 0] ∧
    ¬ List.Sorted (· ≤ ·)
      (findWorkingCameras [1, 0] (fun _ => true) [1, 0] (fun _ => true)) := by
  refine ⟨by decide, by decide, rfl, ?_⟩
  intro h
  exact absurd h (by decide)

/-- C2 amended: for every completion schedule (any permutation
`order1` of the candidate identities and any permutation `order2` of
the first-pass survivors), the returned list contains exactly the
identities that survive both probe passes — in particular it never
contains an identity that failed the second confirmation pass — and its
order is the second-pass completion order, which coincides with
ascending identity when completions happen in submission order and the
candidates are ascending.  The `[0,1,2]` scenario with identity 1
failing both passes returns `[0, 2]` under the in-order schedule. -/
theorem c2_find_working_amended (indexes order1 order2 : List ℕ)
    (probe1 probe2 : ℕ → Bool)
    (h1 : order1.Perm indexes)
    (h2 : order2.Perm (findWorkingPass order1 probe1)) :
    (∀ idx, idx ∈ findWorkingCameras order1 probe1 order2 probe2 ↔
        idx ∈ indexes ∧ probe1 idx = true ∧ probe2 idx = true) ∧
    (∀ idx ∈ findWorkingCameras order1 probe1 order2 probe2,
        probe2 idx = true) ∧
    (order1 = indexes → order2 = findWorkingPass order1 probe1 →
        List.Sorted (· ≤ ·) indexes →
        List.Sorted (· ≤ ·) (findWorkingCameras order1 probe1 order2 probe2)) ∧
    (findWorkingCameras [0, 1, 2] (fun i => decide (i ≠ 1))
        [0, 2] (fun i => decide (i ≠ 1)) = [0, 2]) := by
  have hmem : ∀ idx, idx ∈ findWorkingCameras order1 probe1 order2 probe2 ↔
      idx ∈ indexes ∧ probe1 idx = true ∧ probe2 idx = true := by
    intro idx
    rw [findWorkingCameras]
    by_cases hempty : (findWorkingPass order1 probe1).isEmpty
    · rw [if_pos hempty]
      simp only [findWorkingPass] at *
      rw [List.isEmpty_iff] at hempty
      constructor
      · intro hin
        rw [hempty] at hin
        cases hin
      · rintro ⟨hidx, hp1, _⟩
        have : idx ∈ order1.filter probe1 := by
          rw [List.mem_filter]
          exact ⟨h1.mem_iff.mpr hidx, hp1⟩
        rw [hempty] at this
        cases this
    · rw [if_neg hempty]
      simp only [findWorkingPass] at *
      rw [List.mem_filter]
      rw [h2.mem_iff, List.mem_filter, h1.mem_iff]
      tauto
  refine ⟨hmem, ?_, ?_, rfl⟩
  · intro idx hin
    exact ((hmem idx).mp hin).2.2
  · intro ho1 ho2 hsorted
    have hsorted1 : List.Sorted (· ≤ ·) order1 := by
      rw [ho1]
      exact hsorted
    rw [findWorkingCameras]
    by_cases hempty : (findWorkingPass order1 probe1).isEmpty
    · rw [if_pos hempty]
      rw [List.isEmpty_iff] at hempty
      rw [hempty]
      exact List.sorted_nil
    · rw [if_neg hempty, ho2]
      simp only [findWorkingPass]
      exact List.Pairwise.filter probe2 (List.Pairwise.filter probe1 hsorted1)

/-- C2 amended, witnessed on the spec's scenario: candidates
`[0, 1, 2]`, identity 1 failing both passes, in-order completion; the
membership characterisation and the no-failed-identity guarantee hold
and the result is `[0, 2]`. -/
theorem c2_find_working_witness :
    (([0, 1, 2] : List ℕ).Perm [0, 1, 2] ∧
      ([0, 2] : List ℕ).Perm
        (findWorkingPass [0, 1, 2] (fun i => decide (i ≠ 1)))) ∧
    (∀ idx ∈ findWorkingCameras [0, 1, 2] (fun i => decide (i ≠ 1))
        [0, 2] (fun i => decide (i ≠ 1)), decide (idx ≠ 1) = true) ∧
    (1 ∈ findWorkingCameras [0, 1, 2] (fun i => decide (i ≠ 1))
        [0, 2] (fun i => decide (i ≠ 1)) ↔
      1 ∈ ([0, 1, 2] : List ℕ) ∧ decide ((1 : ℕ) ≠ 1) = true ∧
        decide ((1 : ℕ) ≠ 1) = true) :=
  ⟨⟨by decide, by decide⟩,
   (c2_find_working_amended [0, 1, 2] [0, 1, 2] [0, 2]
      (fun i => decide (i ≠ 1)) (fun i => decide (i ≠ 1))
      (by decide) (by decide)).2.1,
   (c2_find_working_amended [0, 1, 2] [0, 1, 2] [0, 2]
      (fun i => decide (i ≠ 1)) (fun i => decide (i ≠ 1))
      (by decide) (by decide)).1 1⟩

/-! ## Hot-plug rescan (`src/main.py`, lines 1363-1401)

`rescan_and_attach` filters the currently enumerated identities down to
candidates (not active, not in cooldown), then probes candidates in
order while placeholder slots remain, attaching each success to the
oldest placeholder and recording a failure timestamp for each failure.
`failed_indexes` is embedded as an association list, placeholders as the
list of their slot identifiers (FIFO), and the probe verdict of
`test_single_camera(idx, retries=2, retry_delay=0.15, allow_kill=False)`
as an oracle `probe : ℕ → Bool`. -/

/-- `failed_indexes.get(idx)`. -/
def lookupFailed (failed : List (ℕ × ℚ)) (idx : ℕ) : Option ℚ :=
  (failed.find? (fun p => p.1 = idx)).map Prod.snd

/-- The cooldown gate `if last_failed and (now - last_failed) <
FAILED_CAMERA_COOLDOWN_SEC` — Python float truthiness makes a `0.0`
timestamp falsy, so the gate requires a non-zero recorded timestamp. -/
def inCooldown (now : ℚ) (lastFailed : Option ℚ) : Bool :=
  match lastFailed with
  | none => false
  | some t => decide (t ≠ 0) && decide (now - t < FAILED_CAMERA_COOLDOWN_SEC)

/-- The candidate list of one rescan tick: enumerated identities that
are neither currently active nor in cooldown, in enumeration order. -/
def rescanCandidates (now : ℚ) (indexes active : List ℕ)
    (failed : List (ℕ × ℚ)) : List ℕ :=
  indexes.filter (fun idx =>
    !(active.contains idx) && !(inCooldown now (lookupFailed failed idx)))

/-- Outcome of the rescan probe/attach loop: the `(slot, identity)`
attachments made (FIFO slots), the placeholders left over, and the
identities whose probe failed (to receive fresh failure timestamps). -/
structure RescanOutcome where
  attached : List (ℕ × ℕ)
  remainingSlots : List ℕ
  newFailures : List ℕ
deriving DecidableEq, Repr

/-- The `for idx in candidates` loop of `rescan_and_attach`: stop when
no placeholder slot remains; a successful probe pops the first
placeholder and attaches the identity to it; a failed probe records the
identity as failed. -/
def rescanLoop (probe : ℕ → Bool) : List ℕ → List ℕ → RescanOutcome
  | [], slots => { attached := [], remainingSlots := slots, newFailures := [] }
  | idx :: rest, slots =>
      match slots with
      | [] => { attached := [], remainingSlots := [], newFailures := [] }
      | s :: srest =>
          if probe idx then
            let r := rescanLoop probe rest srest
            { r with attached := (s, idx) :: r.attached }
          else
            let r := rescanLoop probe rest (s :: srest)
            { r with newFailures := idx :: r.newFailures }

/-- One full `rescan_and_attach` tick. -/
def rescanAndAttach (now : ℚ) (indexes active : List ℕ)
    (failed : List (ℕ × ℚ)) (slots : List ℕ) (probe : ℕ → Bool) :
    RescanOutcome :=
  rescanLoop probe (rescanCandidates now indexes active failed) slots

/-- Every identity attached by the rescan loop comes from the candidate
list it was given. -/
theorem rescanLoop_attached_mem (probe : ℕ → Bool) (cands slots : List ℕ)
    (s idx : ℕ) (h : (s, idx) ∈ (rescanLoop probe cands slots).attached) :
    idx ∈ cands := by
  induction cands generalizing slots with
  | nil =>
      simp [rescanLoop] at h
  | cons c rest ih =>
      cases slots with
      | nil =>
          simp [rescanLoop] at h
      | cons s0 srest =>
          by_cases hp : probe c
          · simp only [rescanLoop, if_pos hp, List.mem_cons, Prod.mk.injEq] at h
            rcases h with ⟨_, rfl⟩ | h
            · exact List.mem_cons_self _ _
            · exact List.mem_cons_of_mem _ (ih _ h)
          · simp only [rescanLoop, if_neg hp] at h
            exact List.mem_cons_of_mem _ (ih _ h)

/-! ### C8: the cooldown gate -/

/-- C8: at a rescan tick at time `now`, an identity whose recorded
failure timestamp `t` (a positive clock reading) is within
`FAILED_CAMERA_COOLDOWN_SEC` of `now` is excluded from the candidate
list, hence never probed and never attached to a placeholder slot; and
every candidate that is probed is neither active nor in cooldown. -/
theorem c8_cooldown_gate (now t : ℚ) (idx : ℕ) (indexes active : List ℕ)
    (failed : List (ℕ × ℚ)) (slots : List ℕ) (probe : ℕ → Bool)
    (hrec : lookupFailed failed idx = some t) (hpos : 0 < t)
    (hcool : now - t < FAILED_CAMERA_COOLDOWN_SEC) :
    idx ∉ rescanCandidates now indexes active failed ∧
    (∀ s, (s, idx) ∉ (rescanAndAttach now indexes active failed slots probe).attached) ∧
    (∀ j ∈ rescanCandidates now indexes active failed,
        j ∉ active ∧ inCooldown now (lookupFailed failed j) = false) := by
  have hcd : inCooldown now (lookupFailed failed idx) = true := by
    rw [hrec, inCooldown]
    simp only [Bool.and_eq_true, decide_eq_true_eq]
    exact ⟨ne_of_gt hpos, hcool⟩
  have hnotc : idx ∉ rescanCandidates now indexes active failed := by
    intro hmem
    rw [rescanCandidates, List.mem_filter] at hmem
    have := hmem.2
    rw [hcd] at this
    simp at this
  refine ⟨hnotc, ?_, ?_⟩
  · intro s hatt
    exact hnotc (rescanLoop_attached_mem probe _ slots s idx hatt)
  · intro j hj
    rw [rescanCandidates, List.mem_filter] at hj
    have h2 := hj.2
    simp only [Bool.and_eq_true, Bool.not_eq_true'] at h2
    constructor
    · intro hact
      have hc := h2.1
      simp at hc
      exact hc hact
    · exact h2.2

/-- C8 witnessed: at time 10 with a failure recorded at time 5 for
identity 3 (within the 30-second cooldown), identity 3 is not a
candidate and is never attached, even though it is enumerated, inactive
and its probe would succeed. -/
theorem c8_cooldown_witness :
    (3 : ℕ) ∉ rescanCandidates 10 [1, 3] [1] [(3, 5)] ∧
    (∀ s, (s, 3) ∉
      (rescanAndAttach 10 [1, 3] [1] [(3, 5)] [7, 8] (fun _ => true)).attached) :=
  ⟨(c8_cooldown_gate 10 5 3 [1, 3] [1] [(3, 5)] [7, 8] (fun _ => true)
      rfl (by norm_num) (by norm_num [FAILED_CAMERA_COOLDOWN_SEC])).1,
   (c8_cooldown_gate 10 5 3 [1, 3] [1] [(3, 5)] [7, 8] (fun _ => true)
      rfl (by norm_num) (by norm_num [FAILED_CAMERA_COOLDOWN_SEC])).2.1⟩

/-! ## CameraWidget.attach_camera (`src/main.py`, lines 572-607)

`attach_camera` guards with `if self.capture_enabled and self.worker:
return`; otherwise it enables capture, stores the camera identity, sets
base and current target fps, optionally re-applies the UI render rate
(`_apply_ui_fps`, i.e. `max(1, int(ui_fps))`), creates and starts a new
`CaptureWorker`, and clears the latest frame. -/

/-- `CameraWidget.attach_camera(stream_link, target_fps, ..., ui_fps)`. -/
def attachCamera (w : CameraWidgetState) (streamLink : ℕ)
    (targetFps : Option ℚ) (uiFps : Option ℕ) : CameraWidgetState :=
  if w.captureEnabled = true ∧ w.worker.isSome then w
  else
    { w with
      captureEnabled := true,
      cameraStreamLink := some streamLink,
      baseTargetFps := targetFps,
      currentTargetFps := targetFps,
      uiRenderFps :=
        match uiFps with
        | some u => max 1 u
        | none => w.uiRenderFps,
      worker := some (mkCaptureWorker targetFps),
      latestFrame := none }

/-! ### C9: attach on an occupied widget is a no-op -/

/-- C9: calling `attach_camera` on a widget that already has capture
enabled and a live worker returns immediately: the widget state is
unchanged — no second worker is created and no field is modified — so a
slot never ends up with more than its single (optional) worker. -/
theorem c9_attach_occupied_noop (w : CameraWidgetState) (streamLink : ℕ)
    (targetFps : Option ℚ) (uiFps : Option ℕ)
    (hen : w.captureEnabled = true) (hworker : w.worker.isSome) :
    attachCamera w streamLink targetFps uiFps = w ∧
    (attachCamera w streamLink targetFps uiFps).worker = w.worker := by
  have h : w.captureEnabled = true ∧ w.worker.isSome := ⟨hen, hworker⟩
  rw [attachCamera.eq_def, if_pos h]
  exact ⟨rfl, rfl⟩

/-- C9 witnessed: attaching camera 2 to an already-occupied widget
(enabled, live worker for camera 0) changes nothing. -/
theorem c9_attach_occupied_witness :
    attachCamera
      { captureEnabled := true, cameraStreamLink := some 0,
        baseTargetFps := some 20, currentTargetFps := some 20,
        uiRenderFps := 25, worker := some (mkCaptureWorker (some 20)),
        latestFrame := none } 2 (some 20) (some 25) =
    { captureEnabled := true, cameraStreamLink := some 0,
      baseTargetFps := some 20, currentTargetFps := some 20,
      uiRenderFps := 25, worker := some (mkCaptureWorker (some 20)),
      latestFrame := none } :=
  (c9_attach_occupied_noop
    { captureEnabled := true, cameraStreamLink := some 0,
      baseTargetFps := some 20, currentTargetFps := some 20,
      uiRenderFps := 25, worker := some (mkCaptureWorker (some 20)),
      latestFrame := none } 2 (some 20) (some 25) rfl rfl).1

/-! ## DeviceProbe: `test_single_camera` (`src/main.py`, lines 1042-1081)

`try_open` creates a `cv2.VideoCapture` *before* its `try` block and
releases it in the `finally` clause (itself guarded by `try/except`),
so the release call runs on every exit of the block — normal return or
exception.  The embedding records the externally visible actions of one
attempt as a trace; the backend's behaviour for the attempt is an
oracle value. -/

/-- Externally visible steps of one probe attempt. -/
inductive ProbeAction where
  | openHandle
  | setBufferSize
  | isOpenedCheck
  | grabCall
  | releaseCall
deriving DecidableEq, Repr

/-- Backend behaviour of one `try_open` attempt. -/
inductive AttemptOutcome where
  | ctorRaises
  | setRaises
  | notOpened
  | isOpenedRaises
  | grabRaises
  | grabFails
  | grabSucceeds
deriving DecidableEq, Repr

/-- The `try` block of `try_open`: the actions it performs and its
result — `some b` for a normal `return b`, `none` when an exception
escapes the block. -/
def tryOpenBody : AttemptOutcome → List ProbeAction × Option Bool
  | .ctorRaises => ([], none)
  | .setRaises => ([.setBufferSize], none)
  | .notOpened => ([.setBufferSize, .isOpenedCheck], some false)
  | .isOpenedRaises => ([.setBufferSize, .isOpenedCheck], none)
  | .grabRaises => ([.setBufferSize, .isOpenedCheck, .grabCall], none)
  | .grabFails => ([.setBufferSize, .isOpenedCheck, .grabCall], some false)
  | .grabSucceeds => ([.setBufferSize, .isOpenedCheck, .grabCall], some true)

/-- One `try_open` attempt.  If the `VideoCapture` constructor raises,
no handle exists and the `try/finally` is never entered; otherwise the
handle-creating action is followed by the `try` block's actions and —
via `finally` — by the release call, whatever the block did. -/
def tryOpen (o : AttemptOutcome) : List ProbeAction × Option Bool :=
  match o with
  | .ctorRaises => ([], none)
  | o =>
      let body := tryOpenBody o
      (ProbeAction.openHandle :: body.1 ++ [ProbeAction.releaseCall], body.2)

/-- The retry loop of `test_single_camera` over per-attempt outcomes:
stop with success on `some true`, keep retrying on a `False` return,
and propagate an exception (which aborts `test_single_camera`
entirely). -/
def runAttempts : List AttemptOutcome → List ProbeAction × Option Bool
  | [] => ([], some false)
  | o :: rest =>
      let (tr, res) := tryOpen o
      match res with
      | some true => (tr, some true)
      | some false =>
          let (tr2, res2) := runAttempts rest
          (tr ++ tr2, res2)
      | none => (tr, none)

/-- `test_single_camera`: the main retry loop; on exhaustion, if
killing holders is allowed and found someone to kill, the post-kill
retry loop.  Result: `some (some idx)` for a confirmed camera,
`some none` for a `None` return, `none` when an attempt raised. -/
def testSingleCamera (camIndex : ℕ) (outcomes1 : List AttemptOutcome)
    (allowKill killed : Bool) (outcomes2 : List AttemptOutcome) :
    List ProbeAction × Option (Option ℕ) :=
  let (tr1, r1) := runAttempts outcomes1
  match r1 with
  | some true => (tr1, some (some camIndex))
  | none => (tr1, none)
  | some false =>
      if allowKill && killed then
        let (tr2, r2) := runAttempts outcomes2
        match r2 with
        | some true => (tr1 ++ tr2, some (some camIndex))
        | some false => (tr1 ++ tr2, some none)
        | none => (tr1 ++ tr2, none)
      else (tr1, some none)

theorem tryOpen_balanced (o : AttemptOutcome) :
    (tryOpen o).1.count ProbeAction.releaseCall =
      (tryOpen o).1.count ProbeAction.openHandle := by
  cases o <;> rfl

theorem tryOpen_ends_released (o : AttemptOutcome) (h : o ≠ AttemptOutcome.ctorRaises) :
    (tryOpen o).1.getLast? = some ProbeAction.releaseCall := by
  cases o with
  | ctorRaises => exact absurd rfl h
  | setRaises => rfl
  | notOpened => rfl
  | isOpenedRaises => rfl
  | grabRaises => rfl
  | grabFails => rfl
  | grabSucceeds => rfl

theorem runAttempts_balanced (outcomes : List AttemptOutcome) :
    (runAttempts outcomes).1.count ProbeAction.releaseCall =
      (runAttempts outcomes).1.count ProbeAction.openHandle := by
  induction outcomes with
  | nil => rfl
  | cons o rest ih =>
      rw [runAttempts]
      rcases hres : (tryOpen o).2 with _ | b
      · simp only [hres]
        exact tryOpen_balanced o
      · cases b with
        | true =>
            simp only [hres]
            exact tryOpen_balanced o
        | false =>
            simp only [hres, List.count_append]
            rw [tryOpen_balanced o, ih]

/-! ### C10: every probe attempt releases its handle -/

/-- C10: in `test_single_camera`, every attempt that created a
`VideoCapture` handle also released it before the attempt ended — on
success, on open failure, on grab failure, and when an exception was
raised inside the attempt (the `finally` clause).  Consequently, over
any full run of `test_single_camera` (both retry loops, any outcome
sequence, any exit — including an exception propagating out) the number
of release calls equals the number of handles created, and any attempt
that created a handle ends with the release call. -/
theorem c10_probe_releases_handle (o : AttemptOutcome) (camIndex : ℕ)
    (outcomes1 outcomes2 : List AttemptOutcome) (allowKill killed : Bool) :
    ((tryOpen o).1.count ProbeAction.releaseCall =
        (tryOpen o).1.count ProbeAction.openHandle) ∧
    (o ≠ AttemptOutcome.ctorRaises →
        (tryOpen o).1.getLast? = some ProbeAction.releaseCall) ∧
    ((testSingleCamera camIndex outcomes1 allowKill killed outcomes2).1.count
        ProbeAction.releaseCall =
      (testSingleCamera camIndex outcomes1 allowKill killed outcomes2).1.count
        ProbeAction.openHandle) := by
  refine ⟨tryOpen_balanced o, tryOpen_ends_released o, ?_⟩
  rw [testSingleCamera]
  rcases hres : (runAttempts outcomes1).2 with _ | b
  · simp only [hres]
    exact runAttempts_balanced outcomes1
  · cases b with
    | true =>
        simp only [hres]
        exact runAttempts_balanced outcomes1
    | false =>
        simp only [hres]
        by_cases hk : allowKill && killed
        · rw [if_pos hk]
          rcases hres2 : (runAttempts outcomes2).2 with _ | b2
          · simp only [hres2, List.count_append]
            rw [runAttempts_balanced outcomes1, runAttempts_balanced outcomes2]
          · cases b2 with
            | true =>
                simp only [hres2, List.count_append]
                rw [runAttempts_balanced outcomes1, runAttempts_balanced outcomes2]
            | false =>
                simp only [hres2, List.count_append]
                rw [runAttempts_balanced outcomes1, runAttempts_balanced outcomes2]
        · rw [if_neg hk]
          exact runAttempts_balanced outcomes1

/-- C10 witnessed on a concrete run: three attempts (grab failure, an
exception mid-attempt is avoided here: open failure, then success) with
the kill path disabled; the trace is balanced and the attempt traces end
in the release call. -/
theorem c10_probe_releases_witness :
    (tryOpen AttemptOutcome.grabRaises).1.getLast? =
      some ProbeAction.releaseCall ∧
    ((testSingleCamera 0
        [AttemptOutcome.grabFails, AttemptOutcome.notOpened,
         AttemptOutcome.grabSucceeds] false false []).1.count
        ProbeAction.releaseCall =
      (testSingleCamera 0
        [AttemptOutcome.grabFails, AttemptOutcome.notOpened,
         AttemptOutcome.grabSucceeds] false false []).1.count
        ProbeAction.openHandle) :=
  ⟨(c10_probe_releases_handle AttemptOutcome.grabRaises 0 [] [] false false).2.1
      (by decide),
   (c10_probe_releases_handle AttemptOutcome.grabRaises 0
      [AttemptOutcome.grabFails, AttemptOutcome.notOpened,
       AttemptOutcome.grabSucceeds] [] false false).2.2⟩

end CameraGrid
